import Mathlib

/-!
A shallow embedding of the session lifecycle and real-time streaming core of
the repository (src/context/SessionContext.tsx, src/hooks/useVoiceRenderer.ts
with useLiveAudioCapture, src/api/client.ts,
src/components/visualization/ConsciousnessVisualizer.tsx), together with
proofs of the specified properties of that core.

Modelling conventions:
* Remote calls (api.createSession, api.closeSession, api.submitAudio) are
  oracles: their result is passed to the embedded operation as an
  `Except String _` argument; a returned flag records whether the remote
  call was issued.
* React useState/useRef cells become fields of an explicit `Ctx` record;
  each callback becomes a pure state transformer.
* JavaScript values arriving on the websocket are modelled by a `Json`
  inductive together with the JavaScript typeof operator and property access.
* The reconnect window.setTimeout becomes an `Option (Nat × String)` field
  holding the pending delay and the session id captured by the scheduled
  callback closure; firing and clearTimeout are explicit steps.
-/

namespace TheNote

/-- JSON values as delivered by JSON.parse (the api types are plain JSON
records). Numbers are modelled as rationals. -/
inductive Json where
  | null
  | bool (b : Bool)
  | num (q : ℚ)
  | str (s : String)
  | arr (elems : List Json)
  | obj (fields : List (String × Json))
  deriving Repr

/-- JavaScript test `value === null` on a parsed JSON value. -/
def Json.isNull : Json → Bool
  | .null => true
  | _ => false

/-- JavaScript test `x !== null` where `x` is a property read: a missing
property (undefined) is not null. -/
def isNotNullProp : Option Json → Bool
  | some .null => false
  | _ => true

/-- JavaScript typeof on a parsed JSON value (typeof null is "object", and
arrays are "object" too). -/
def jsTypeof : Json → String
  | .null => "object"
  | .bool _ => "boolean"
  | .num _ => "number"
  | .str _ => "string"
  | .arr _ => "object"
  | .obj _ => "object"

/-- JavaScript property access `value[k]` on a parsed JSON value: `none`
models undefined. Only objects expose named fields. -/
def jsGet (v : Json) (k : String) : Option Json :=
  match v with
  | .obj fields => fields.lookup k
  | _ => none

/-- Evaluation of `typeof candidate[k]`: a missing property reads as
undefined. -/
def typeofField (v : Json) (k : String) : String :=
  match jsGet v k with
  | some w => jsTypeof w
  | none => "undefined"

/-- Type guard isSessionEvent, SessionContext.tsx lines 37–50: the value
must be a non-null object whose session_id, source, target, created_at
fields are strings and whose payload field is a non-null object. -/
def isSessionEvent (value : Json) : Bool :=
  if jsTypeof value != "object" || value.isNull then false
  else
    typeofField value "session_id" == "string" &&
    typeofField value "source" == "string" &&
    typeofField value "target" == "string" &&
    typeofField value "created_at" == "string" &&
    typeofField value "payload" == "object" &&
    isNotNullProp (jsGet value "payload")

/-- Record SessionMetadata from the api types module. -/
structure SessionMetadata where
  session_id : String
  user_id : String
  intent : String
  daw : Option String := none
  key : Option String := none
  tempo : Option ℚ := none
  emotional_goal : Option String := none
  references : List String := []
  created_at : String := ""
  deriving Repr, DecidableEq

/-- Record SessionState from the api types module: metadata, the active
flag, and an opaque attribute map. -/
structure SessionState where
  metadata : SessionMetadata
  active : Bool
  attributes : List (String × Json) := []
  deriving Repr

/-- Record AudioFrame from the api types module. -/
structure AudioFrame where
  session_id : String
  frame_id : String
  sample_rate : ℚ
  channels : Nat
  duration_ms : ℚ
  waveform_base64 : String
  rms : Option ℚ := none
  peak : Option ℚ := none
  timestamp_ms : ℚ
  deriving Repr, DecidableEq

/-- A Float32Array: each sample is four raw little-endian bytes (the float
bit pattern is opaque to this layer, which only re-encodes the bytes). -/
structure Float32Array where
  samples : List (Nat × Nat × Nat × Nat)
  deriving Repr, DecidableEq

/-- Reading `buffer.length`: the number of Float32 samples. -/
def Float32Array.length (b : Float32Array) : Nat := b.samples.length

/-- Flattening of sample tuples into the underlying byte sequence. -/
def sampleBytes : List (Nat × Nat × Nat × Nat) → List Nat
  | [] => []
  | s :: rest => s.1 :: s.2.1 :: s.2.2.1 :: s.2.2.2 :: sampleBytes rest

/-- Reading `new Uint8Array(buffer.buffer)`: the underlying bytes in order. -/
def Float32Array.bytes (b : Float32Array) : List Nat := sampleBytes b.samples

/-- Base64 alphabet used by btoa. -/
def base64Alphabet : List Char :=
  "ABCDEFGHIJKLMNOPQRSTUVWXYZabcdefghijklmnopqrstuvwxyz0123456789+/".toList

/-- One base64 digit. -/
def base64Char (n : Nat) : Char := base64Alphabet.getD n '?'

/-- Encoding btoa over a byte string (standard base64 with padding), as
applied to the accumulated String.fromCharCode bytes in pushAudioFrame. -/
def btoa : List Nat → String
  | [] => ""
  | [a] =>
    String.mk [base64Char (a / 4), base64Char (a % 4 * 16), '=', '=']
  | [a, b] =>
    String.mk [base64Char (a / 4), base64Char (a % 4 * 16 + b / 16),
      base64Char (b % 16 * 4), '=']
  | a :: b :: c :: rest =>
    String.mk [base64Char (a / 4), base64Char (a % 4 * 16 + b / 16),
      base64Char (b % 16 * 4 + c / 64), base64Char (c % 64)] ++ btoa rest

/-- WebSocket ready states. -/
inductive ReadyState where
  | connecting
  | opened
  | closing
  | closedState
  deriving Repr, DecidableEq

/-- The socket held in socketRef: the session id captured by its URL and
handler closures, and its ready state. -/
structure Socket where
  sessionId : String
  readyState : ReadyState
  deriving Repr, DecidableEq

/-- Mutable cells of the provider (SessionContext.tsx lines 53–58):
session/isLoading/events state plus socketRef, reconnectTimer (pending delay
in ms and the session id captured by the scheduled callback) and
sessionIdRef. -/
structure Ctx where
  session : Option SessionState
  isLoading : Bool
  events : List Json
  socket : Option Socket
  reconnectTimer : Option (Nat × String)
  sessionIdRef : Option String
  deriving Repr

/-- Initial state of the provider. -/
def Ctx.init : Ctx :=
  { session := none, isLoading := false, events := [], socket := none,
    reconnectTimer := none, sessionIdRef := none }

/-- Fixed reconnect delay passed to window.setTimeout
(SessionContext.tsx line 93). -/
def reconnectDelayMs : Nat := 1500

/-- Callback disconnectStream (lines 60–70): close and drop the socket,
cancel any pending reconnect timer, clear the event feed. -/
def disconnectStream (c : Ctx) : Ctx :=
  { c with socket := none, reconnectTimer := none, events := [] }

/-- Callback connectStream (lines 72–100): open a fresh socket scoped to the
session id and store it in socketRef. It installs onmessage, onclose,
onerror handlers and nothing else — in particular no send call and no ping
timer. -/
def connectStream (c : Ctx) (sessionId : String) : Ctx :=
  { c with socket := some ⟨sessionId, .connecting⟩ }

/-- Effect of the socket onmessage handler on the feed (lines 77–88): an
unparsable payload (`none`) or one failing isSessionEvent is dropped and a
decode failure logged (the Bool result); a valid event is prepended and the
feed truncated with slice(0, 100). The handler catches both failure modes,
so it is total and never throws. -/
def handleStreamMessage (feed : List Json) (msg : Option Json) :
    List Json × Bool :=
  match msg with
  | none => (feed, true)
  | some v =>
    if isSessionEvent v then ((v :: feed).take 100, false)
    else (feed, true)

/-- The socket onclose handler (lines 90–95) of a socket whose closure
captured `sessionId`: null out socketRef; if sessionIdRef still holds the
same session id, schedule connectStream for it after reconnectDelayMs. -/
def handleSocketClose (c : Ctx) (sessionId : String) : Ctx :=
  let c' := { c with socket := none }
  if c'.sessionIdRef = some sessionId then
    { c' with reconnectTimer := some (reconnectDelayMs, sessionId) }
  else c'

/-- A pending reconnect timer fires: run the scheduled connectStream call;
the timer is no longer pending. -/
def fireReconnect (c : Ctx) : Ctx :=
  match c.reconnectTimer with
  | some (_, sid) => connectStream { c with reconnectTimer := none } sid
  | none => c

/-- Negation of the guard on SessionContext.tsx line 106: a socket exists
and its ready state is OPEN. -/
def socketIsOpen (c : Ctx) : Bool :=
  match c.socket with
  | some sk => sk.readyState == .opened
  | none => false

/-- Request payload of ensureSession (SessionContext.tsx lines 21–29). -/
structure EnsurePayload where
  user_id : String
  intent : String
  daw : Option String := none
  key : Option String := none
  tempo : Option ℚ := none
  emotional_goal : Option String := none
  references : List String := []
  deriving Repr, DecidableEq

/-- Operation ensureSession (lines 102–130). `remote` is the oracle for
api.createSession; the Bool in the result records whether that remote call
was issued. With a stored session: refresh sessionIdRef, reconnect the
stream only if no open socket, and return the stored session unchanged.
Without one: on remote success store the new state, point sessionIdRef at it
and connect the stream; on remote failure re-throw. -/
def ensureSession (c : Ctx) (_payload : EnsurePayload)
    (remote : Except String SessionState) :
    Ctx × Except String SessionState × Bool :=
  match c.session with
  | some s =>
    let c' := { c with sessionIdRef := some s.metadata.session_id }
    let c'' := if socketIsOpen c' then c'
      else connectStream c' s.metadata.session_id
    (c'', .ok s, false)
  | none =>
    match remote with
    | .ok state =>
      (connectStream
        { c with session := some state,
                 sessionIdRef := some state.metadata.session_id,
                 isLoading := false }
        state.metadata.session_id,
       .ok state, true)
    | .error e => ({ c with isLoading := false }, .error e, true)

/-- Operation closeSession (lines 132–147). `remote` is the oracle for
api.closeSession. No stored session: return. On remote success: store the
closed state, null sessionIdRef, run disconnectStream. On remote failure the
catch block re-throws and only the finally block runs: no teardown. -/
def closeSession (c : Ctx) (remote : Except String SessionState) :
    Ctx × Except String Unit :=
  match c.session with
  | none => (c, .ok ())
  | some _ =>
    match remote with
    | .ok closed =>
      (disconnectStream
        { c with session := some closed, sessionIdRef := none,
                 isLoading := false },
       .ok ())
    | .error e => ({ c with isLoading := false }, .error e)

/-- Operation pushAudioFrame (lines 149–174). `freshId` stands for the
nanoid(32) draw and `now` for performance.now(). With no stored session it
throws "Session not initialized"; otherwise it builds the frame and
delegates to api.submitAudio, modelled by returning the arguments of that
call. -/
def pushAudioFrame (c : Ctx) (buffer : Float32Array) (sampleRate : ℚ)
    (freshId : String) (now : ℚ) : Except String (String × AudioFrame) :=
  match c.session with
  | none => .error "Session not initialized"
  | some s =>
    let frameId := "frame_" ++ freshId
    let waveform := btoa buffer.bytes
    let durationMs := ((buffer.length : ℚ) / sampleRate) * 1000
    let frame : AudioFrame :=
      { session_id := s.metadata.session_id
        frame_id := frameId
        sample_rate := sampleRate
        channels := 1
        duration_ms := durationMs
        waveform_base64 := waveform
        timestamp_ms := now }
    .ok (s.metadata.session_id, frame)

/-- Asynchronous happenings that drive the provider, interleaved on the
single JavaScript thread: the two user-triggered session operations (with
their remote-call oracles), socket readiness/close callbacks, inbound stream
messages (`none` = unparsable payload), the reconnect timer firing, and the
provider unmount effect (SessionContext.tsx lines 188–193). -/
inductive Action where
  | ensure (payload : EnsurePayload) (remote : Except String SessionState)
  | close (remote : Except String SessionState)
  | socketOpened
  | socketClosed (sessionId : String)
  | streamMessage (msg : Option Json)
  | reconnectFires
  | unmount
  deriving Repr

/-- One interleaved callback invocation. `socketClosed sid` is the onclose
handler of a socket whose closure captured `sid`; `streamMessage` only
happens while a socket is stored. -/
def step (c : Ctx) (a : Action) : Ctx :=
  match a with
  | .ensure p r => (ensureSession c p r).1
  | .close r => (closeSession c r).1
  | .socketOpened =>
    { c with socket := c.socket.map fun sk => { sk with readyState := .opened } }
  | .socketClosed sid => handleSocketClose c sid
  | .streamMessage m =>
    match c.socket with
    | some _ => { c with events := (handleStreamMessage c.events m).1 }
    | none => c
  | .reconnectFires => fireReconnect c
  | .unmount => disconnectStream c

/-- Run a sequence of interleaved callbacks. -/
def run (c : Ctx) (acts : List Action) : Ctx := acts.foldl step c

/-- Client-to-server transmissions of the session event stream during one
callback: connectStream (SessionContext.tsx lines 72–100) installs only
onmessage/onclose/onerror handlers and no timer, and no code path of
SessionContext.tsx calls socket.send, so nothing is ever transmitted. -/
def streamClientSends : Ctx → Action → List String
  | _, _ => []

/-- All stream-client transmissions along a timed run, with the timestamp
(ms) of the callback that caused each one. -/
def sendsTimed (c : Ctx) (tacts : List (Nat × Action)) : List (Nat × String) :=
  match tacts with
  | [] => []
  | (t, a) :: rest =>
    (streamClientSends c a).map (fun m => (t, m)) ++ sendsTimed (step c a) rest

/-- State reached by a timed run (timestamps only annotate when each
callback happens; they do not influence the transition). -/
def runTimed (c : Ctx) (tacts : List (Nat × Action)) : Ctx :=
  run c (tacts.map fun ta => ta.2)

/-! The live audio capture pipeline, useLiveAudioCapture. -/

/-- Resource-release steps of stopCapture
(src/hooks/useVoiceRenderer.ts lines 64–74). -/
inductive TeardownAction where
  | disconnectProcessor
  | disconnectSource
  | closeContext
  | stopTracks
  deriving Repr, DecidableEq

/-- Which refs of useLiveAudioCapture currently hold a resource
(audioContextRef, processorRef, sourceRef, streamRef), plus the isCapturing
flag. -/
structure CaptureState where
  audioContext : Bool
  processor : Bool
  source : Bool
  stream : Bool
  isCapturing : Bool
  deriving Repr, DecidableEq

/-- Callback stopCapture (lines 64–74): disconnect the script processor,
disconnect the source, close the audio context, stop all media tracks —
each when its ref holds a resource (the optional-chaining calls) — then
null every ref and clear isCapturing. The emitted list records the release
calls in program order. -/
def stopCapture (cs : CaptureState) : CaptureState × List TeardownAction :=
  let acts :=
    (if cs.processor then [TeardownAction.disconnectProcessor] else []) ++
    (if cs.source then [TeardownAction.disconnectSource] else []) ++
    (if cs.audioContext then [TeardownAction.closeContext] else []) ++
    (if cs.stream then [TeardownAction.stopTracks] else [])
  ({ audioContext := false, processor := false, source := false,
     stream := false, isCapturing := false }, acts)

/-- Canonical release order stated by the spec: processing stage, source
node, audio context, media tracks. -/
def teardownOrder : List TeardownAction :=
  [.disconnectProcessor, .disconnectSource, .closeContext, .stopTracks]

/-- Whether stopCapture performs a given release call in state `cs`. -/
def teardownPerformed (cs : CaptureState) : TeardownAction → Bool
  | .disconnectProcessor => cs.processor
  | .disconnectSource => cs.source
  | .closeContext => cs.audioContext
  | .stopTracks => cs.stream

/-- JavaScript guard `!session?.active`: true when no session is stored
(undefined is falsy) or the stored session is inactive. -/
def sessionInactive : Option SessionState → Bool
  | some s => !s.active
  | none => true

/-- Auto-stop effect (useVoiceRenderer.ts lines 116–120): when
`!session?.active && isCapturing`, invoke stopCapture; otherwise do nothing
and release nothing. -/
def captureAutoStop (session : Option SessionState) (cs : CaptureState) :
    CaptureState × List TeardownAction :=
  if sessionInactive session && cs.isCapturing then stopCapture cs
  else (cs, [])

/-! The keep-alive ping loop of the consciousness visualizer. -/

/-- Keep-alive interval of the visualizer in ms
(src/components/visualization/ConsciousnessVisualizer.tsx line 60). -/
def visualizerPingIntervalMs : Nat := 30000

/-- One tick of the keep-alive interval of the visualizer (lines 56–60):
send the literal "ping" if its consciousness-stream socket is OPEN, else
nothing. -/
def visualizerPingTick (readyState : ReadyState) : List String :=
  if readyState == .opened then ["ping"] else []

/-! Concrete fixtures used by witnesses and counterexamples. -/

/-- Metadata of the running example session. -/
def mdA : SessionMetadata :=
  { session_id := "sess_1", user_id := "user_1", intent := "creative_session" }

/-- The example session while active. -/
def sActive : SessionState := { metadata := mdA, active := true }

/-- The active = false variant returned by the remote close call. -/
def sClosed : SessionState := { metadata := mdA, active := false }

/-- A second, fresh session the remote create call could return. -/
def sFresh : SessionState :=
  { metadata := { mdA with session_id := "sess_2" }, active := true }

/-- Provider state with the example session active and its stream open. -/
def cActive : Ctx :=
  { session := some sActive, isLoading := false, events := [],
    socket := some ⟨"sess_1", .opened⟩, reconnectTimer := none,
    sessionIdRef := some "sess_1" }

/-- Example request payload. -/
def payloadA : EnsurePayload := { user_id := "user_1", intent := "creative_session" }

/-- A well-formed stream event for the example session. -/
def evGood : Json :=
  .obj [("session_id", .str "sess_1"), ("source", .str "analysis"),
        ("target", .str "broadcast"),
        ("created_at", .str "2025-11-07T00:00:00Z"),
        ("payload", .obj [("kind", .str "insight")])]

/-- A malformed stream event: the session_id field is missing. -/
def evBad : Json :=
  .obj [("source", .str "analysis"), ("target", .str "broadcast"),
        ("created_at", .str "2025-11-07T00:00:00Z"),
        ("payload", .obj [])]

/-- Provider state with the example session active, an open stream and a
non-empty feed. -/
def cLive : Ctx :=
  { session := some sActive, isLoading := false, events := [evGood],
    socket := some ⟨"sess_1", .opened⟩, reconnectTimer := none,
    sessionIdRef := some "sess_1" }

/-- Provider state right after the stream dropped while the session was
still active: the onclose handler has scheduled a reconnect. -/
def cPendingReconnect : Ctx :=
  { session := some sActive, isLoading := false, events := [evGood],
    socket := none, reconnectTimer := some (reconnectDelayMs, "sess_1"),
    sessionIdRef := some "sess_1" }

/-- An empty audio buffer. -/
def bufEmpty : Float32Array := ⟨[]⟩

/-- A 4096-sample audio block (the script processor block size). -/
def buf4096 : Float32Array := ⟨List.replicate 4096 (0, 0, 0, 0)⟩

/-- Capture state in which every ref holds a live resource. -/
def csFull : CaptureState :=
  { audioContext := true, processor := true, source := true, stream := true,
    isCapturing := true }

/-! Shared invariants of the interleaved execution. -/

/-- Fencing invariant: a pending reconnect timer always targets the id held
in sessionIdRef, and sessionIdRef always names the stored session. -/
def Fenced (c : Ctx) : Prop :=
  (∀ d sid, c.reconnectTimer = some (d, sid) → c.sessionIdRef = some sid) ∧
  (∀ sid, c.sessionIdRef = some sid →
    ∃ s, c.session = some s ∧ s.metadata.session_id = sid)

theorem fenced_init : Fenced Ctx.init := by
  constructor
  · intro d sid ht; simp [Ctx.init] at ht
  · intro sid href; simp [Ctx.init] at href

theorem fenced_step (c : Ctx) (a : Action) (h : Fenced c) :
    Fenced (step c a) := by
  obtain ⟨h1, h2⟩ := h
  cases a with
  | ensure p r =>
    show Fenced (ensureSession c p r).1
    rcases hs : c.session with _ | s
    · cases r with
      | ok st =>
        constructor
        · intro d sid ht
          simp only [ensureSession, hs, connectStream] at ht
          obtain ⟨s', hss, -⟩ := h2 sid (h1 d sid ht)
          rw [hs] at hss
          cases hss
        · intro sid href
          simp only [ensureSession, hs, connectStream] at href
          exact ⟨st, by simp [ensureSession, hs, connectStream],
            Option.some.inj href⟩
      | error e =>
        constructor
        · intro d sid ht
          simp only [ensureSession, hs] at ht ⊢
          exact h1 d sid ht
        · intro sid href
          simp only [ensureSession, hs] at href
          obtain ⟨s', hss, -⟩ := h2 sid href
          rw [hs] at hss
          cases hss
    · have hproj : ((ensureSession c p r).1).reconnectTimer = c.reconnectTimer ∧
          ((ensureSession c p r).1).sessionIdRef = some s.metadata.session_id ∧
          ((ensureSession c p r).1).session = some s := by
        simp only [ensureSession, hs]
        split <;> simp [connectStream, hs]
      obtain ⟨hpt, hpr, hpss⟩ := hproj
      constructor
      · intro d sid ht
        rw [hpt] at ht
        obtain ⟨s', hss, hid⟩ := h2 sid (h1 d sid ht)
        rw [hs] at hss
        obtain rfl := Option.some.inj hss
        rw [hpr, hid]
      · intro sid href
        rw [hpr] at href
        exact ⟨s, hpss, Option.some.inj href⟩
  | close r =>
    show Fenced (closeSession c r).1
    rcases hs : c.session with _ | s
    · simp only [closeSession, hs]
      exact ⟨h1, h2⟩
    · cases r with
      | ok closed =>
        constructor
        · intro d sid ht
          simp [closeSession, hs, disconnectStream] at ht
        · intro sid href
          simp [closeSession, hs, disconnectStream] at href
      | error e =>
        constructor
        · intro d sid ht
          simp only [closeSession, hs] at ht ⊢
          exact h1 d sid ht
        · intro sid href
          simp only [closeSession, hs] at href ⊢
          obtain ⟨s', hss, hid⟩ := h2 sid href
          obtain rfl : s = s' := Option.some.inj (hs.symm.trans hss)
          exact ⟨s, rfl, hid⟩
  | socketOpened => exact ⟨h1, h2⟩
  | socketClosed sid' =>
    show Fenced (handleSocketClose c sid')
    simp only [handleSocketClose]
    split
    · rename_i hc
      constructor
      · intro d sid ht
        have hpair := Option.some.inj ht
        have hsid : sid' = sid := congrArg Prod.snd hpair
        show c.sessionIdRef = some sid
        rw [← hsid]
        exact hc
      · intro sid href
        exact h2 sid href
    · exact ⟨h1, h2⟩
  | streamMessage m =>
    rcases hsk : c.socket with _ | sk <;> simp only [step, hsk]
    · exact ⟨h1, h2⟩
    · exact ⟨h1, h2⟩
  | reconnectFires =>
    show Fenced (fireReconnect c)
    rcases ht : c.reconnectTimer with _ | p
    · simp only [fireReconnect, ht]
      exact ⟨h1, h2⟩
    · obtain ⟨d, sid⟩ := p
      simp only [fireReconnect, ht, connectStream]
      constructor
      · intro d' sid' ht'
        simp at ht'
      · intro sid' href
        exact h2 sid' href
  | unmount =>
    constructor
    · intro d sid ht
      simp [step, disconnectStream] at ht
    · intro sid href
      exact h2 sid href

theorem fenced_run (acts : List Action) (c : Ctx) (h : Fenced c) :
    Fenced (run c acts) := by
  induction acts generalizing c with
  | nil => exact h
  | cons a rest ih => exact ih (step c a) (fenced_step c a h)

theorem handleStreamMessage_length (feed : List Json) (msg : Option Json)
    (h : feed.length ≤ 100) : ((handleStreamMessage feed msg).1).length ≤ 100 := by
  rcases msg with _ | v
  · simpa [handleStreamMessage] using h
  · by_cases hv : isSessionEvent v
    · simp only [handleStreamMessage, hv, if_pos]
      exact List.length_take_le 100 _
    · simpa [handleStreamMessage, hv] using h

theorem step_events_le (c : Ctx) (a : Action) (h : c.events.length ≤ 100) :
    ((step c a).events).length ≤ 100 := by
  cases a with
  | ensure p r =>
    show (((ensureSession c p r).1).events).length ≤ 100
    rcases hs : c.session with _ | s
    · cases r with
      | ok st => simpa [ensureSession, hs, connectStream] using h
      | error e => simpa [ensureSession, hs] using h
    · simp only [ensureSession, hs]
      split <;> simpa [connectStream] using h
  | close r =>
    show (((closeSession c r).1).events).length ≤ 100
    rcases hs : c.session with _ | s
    · simpa [closeSession, hs] using h
    · cases r with
      | ok closed => simp [closeSession, hs, disconnectStream]
      | error e => simpa [closeSession, hs] using h
  | socketOpened => simpa [step] using h
  | socketClosed sid =>
    show ((handleSocketClose c sid).events).length ≤ 100
    simp only [handleSocketClose]
    split <;> simpa using h
  | streamMessage m =>
    rcases hsk : c.socket with _ | sk
    · simpa [step, hsk] using h
    · simpa [step, hsk] using handleStreamMessage_length c.events m h
  | reconnectFires =>
    show ((fireReconnect c).events).length ≤ 100
    rcases ht : c.reconnectTimer with _ | p
    · simpa [fireReconnect, ht] using h
    · obtain ⟨d, sid⟩ := p
      simpa [fireReconnect, ht, connectStream] using h
  | unmount => simp [step, disconnectStream]

theorem run_events_le (acts : List Action) (c : Ctx) (h : c.events.length ≤ 100) :
    ((run c acts).events).length ≤ 100 := by
  induction acts generalizing c with
  | nil => exact h
  | cons a rest ih => exact ih (step c a) (step_events_le c a h)

theorem sendsTimed_eq_nil (c : Ctx) (tacts : List (Nat × Action)) :
    sendsTimed c tacts = [] := by
  induction tacts generalizing c with
  | nil => rfl
  | cons ta rest ih =>
    obtain ⟨t, a⟩ := ta
    simp [sendsTimed, streamClientSends, ih]

theorem sampleBytes_length (l : List (Nat × Nat × Nat × Nat)) :
    (sampleBytes l).length = 4 * l.length := by
  induction l with
  | nil => rfl
  | cons s rest ih =>
    simp [sampleBytes, ih]
    omega

/-! Claim C1. -/

/-- C1 counterexample: from a state in which closeSession has just completed
successfully, pushAudioFrame does not fail — the closed session state is
still stored (not null), the guard only checks for null, and the frame is
accepted. This refutes the claim that frame submission is rejected with the
no-active-session error after closeSession. -/
theorem C1_counterexample :
    (closeSession cActive (Except.ok sClosed)).2 = Except.ok () ∧
    pushAudioFrame (closeSession cActive (Except.ok sClosed)).1 bufEmpty
      22050 "id0" 0 ≠ Except.error "Session not initialized" ∧
    (pushAudioFrame (closeSession cActive (Except.ok sClosed)).1 bufEmpty
      22050 "id0" 0).isOk = true := by
  refine ⟨rfl, ?_, rfl⟩
  intro hcon
  have hok : (pushAudioFrame (closeSession cActive (Except.ok sClosed)).1
      bufEmpty 22050 "id0" 0).isOk = true := rfl
  rw [hcon] at hok
  exact Bool.noConfusion hok

/-- C1 amended: pushAudioFrame fails with the no-active-session error
exactly when no session object is stored; after a successful closeSession
the stored session is its inactive variant (not null), so a subsequent
pushAudioFrame is accepted and the frame is delegated to the remote call
under the closed session id. -/
theorem C1_push_after_close_accepted (c : Ctx) (s closed : SessionState)
    (buffer : Float32Array) (rate : ℚ) (fresh : String) (now : ℚ)
    (h : c.session = some s) :
    (closeSession c (Except.ok closed)).2 = Except.ok () ∧
    ((closeSession c (Except.ok closed)).1).session = some closed ∧
    pushAudioFrame (closeSession c (Except.ok closed)).1 buffer rate fresh
      now ≠ Except.error "Session not initialized" ∧
    (pushAudioFrame (closeSession c (Except.ok closed)).1 buffer rate fresh
      now).map Prod.fst = Except.ok closed.metadata.session_id ∧
    (∀ c' : Ctx, c'.session = none →
      pushAudioFrame c' buffer rate fresh now =
        Except.error "Session not initialized") := by
  refine ⟨?_, ?_, ?_, ?_, ?_⟩
  · simp [closeSession, h]
  · simp [closeSession, h, disconnectStream]
  · simp [closeSession, h, disconnectStream, pushAudioFrame]
  · simp [closeSession, h, disconnectStream, pushAudioFrame, Except.map]
  · intro c' h'
    simp [pushAudioFrame, h']

/-- C1 witness at concrete inputs. -/
theorem C1_push_after_close_accepted_witness :
    (closeSession cActive (Except.ok sClosed)).2 = Except.ok () ∧
    ((closeSession cActive (Except.ok sClosed)).1).session = some sClosed ∧
    pushAudioFrame (closeSession cActive (Except.ok sClosed)).1 bufEmpty
      22050 "id0" 0 ≠ Except.error "Session not initialized" ∧
    (pushAudioFrame (closeSession cActive (Except.ok sClosed)).1 bufEmpty
      22050 "id0" 0).map Prod.fst = Except.ok sClosed.metadata.session_id ∧
    (∀ c' : Ctx, c'.session = none →
      pushAudioFrame c' bufEmpty 22050 "id0" 0 =
        Except.error "Session not initialized") :=
  C1_push_after_close_accepted cActive sActive sClosed bufEmpty 22050 "id0" 0 rfl

/-! Claim C2. -/

/-- C2 counterexample: when the remote close errors, closeSession re-throws
from the catch block before any teardown line runs — the socket is still
stored and connected, the feed is not cleared, and a pending reconnect
timer is not cancelled. This refutes the claim that local teardown still
proceeds when the remote close call errors. -/
theorem C2_counterexample :
    (closeSession cLive (Except.error "boom")).2 = Except.error "boom" ∧
    ((closeSession cLive (Except.error "boom")).1).socket =
      some ⟨"sess_1", ReadyState.opened⟩ ∧
    ((closeSession cLive (Except.error "boom")).1).events = [evGood] ∧
    (closeSession cPendingReconnect (Except.error "boom")).2 =
      Except.error "boom" ∧
    ((closeSession cPendingReconnect (Except.error "boom")).1).reconnectTimer =
      some (1500, "sess_1") := by
  exact ⟨rfl, rfl, rfl, rfl, rfl⟩

/-- C2 amended: if the remote close call errors, closeSession fails with
that error and performs no local teardown — the stored session, session id
ref, socket, reconnect timer and event feed are all left unchanged (only
the loading flag is reset); the stream teardown (socket dropped, reconnect
timer cancelled, feed cleared) happens exactly on a successful remote
close. -/
theorem C2_close_error_skips_teardown (c : Ctx) (s : SessionState)
    (e : String) (closed : SessionState) (h : c.session = some s) :
    (closeSession c (Except.error e)).2 = Except.error e ∧
    (closeSession c (Except.error e)).1 = { c with isLoading := false } ∧
    ((closeSession c (Except.ok closed)).1).socket = none ∧
    ((closeSession c (Except.ok closed)).1).reconnectTimer = none ∧
    ((closeSession c (Except.ok closed)).1).events = [] := by
  refine ⟨?_, ?_, ?_, ?_, ?_⟩ <;> simp [closeSession, h, disconnectStream]

/-- C2 witness at concrete inputs. -/
theorem C2_close_error_skips_teardown_witness :
    (closeSession cLive (Except.error "boom")).2 = Except.error "boom" ∧
    (closeSession cLive (Except.error "boom")).1 =
      { cLive with isLoading := false } ∧
    ((closeSession cLive (Except.ok sClosed)).1).socket = none ∧
    ((closeSession cLive (Except.ok sClosed)).1).reconnectTimer = none ∧
    ((closeSession cLive (Except.ok sClosed)).1).events = [] :=
  C2_close_error_skips_teardown cLive sActive "boom" sClosed rfl

/-! Claim C3. -/

/-- C3: on stream disconnect a reconnect is scheduled after the fixed 1.5 s
delay exactly when the session id captured at disconnect time still equals
the currently active session id (otherwise no reconnect is scheduled);
closing the stream client cancels any pending reconnect timer and clears
the feed; and in every reachable state a pending reconnect targets the
currently active session id, so a scheduled reconnect never survives the
session id it was scheduled for ceasing to be the active one. -/
theorem C3_reconnect_fencing :
    (∀ c sid, c.sessionIdRef = some sid →
      (handleSocketClose c sid).reconnectTimer = some (reconnectDelayMs, sid)) ∧
    reconnectDelayMs = 1500 ∧
    (∀ c sid, c.sessionIdRef ≠ some sid →
      (handleSocketClose c sid).reconnectTimer = c.reconnectTimer) ∧
    (∀ c, (disconnectStream c).reconnectTimer = none ∧
      (disconnectStream c).events = []) ∧
    (∀ acts d sid, (run Ctx.init acts).reconnectTimer = some (d, sid) →
      (run Ctx.init acts).sessionIdRef = some sid) := by
  refine ⟨?_, rfl, ?_, ?_, ?_⟩
  · intro c sid h
    simp [handleSocketClose, h]
  · intro c sid h
    simp [handleSocketClose, h]
  · intro c
    exact ⟨rfl, rfl⟩
  · intro acts d sid h
    exact (fenced_run acts Ctx.init fenced_init).1 d sid h

/-- C3 witness at concrete inputs. -/
theorem C3_reconnect_fencing_witness :
    (handleSocketClose cActive "sess_1").reconnectTimer =
      some (1500, "sess_1") ∧
    (handleSocketClose Ctx.init "sess_1").reconnectTimer = none ∧
    (disconnectStream cPendingReconnect).reconnectTimer = none ∧
    (disconnectStream cPendingReconnect).events = [] ∧
    (run Ctx.init [Action.ensure payloadA (Except.ok sActive),
        Action.socketClosed "sess_1"]).sessionIdRef = some "sess_1" := by
  refine ⟨?_, ?_, ?_, ?_, ?_⟩
  · exact C3_reconnect_fencing.1 cActive "sess_1" rfl
  · exact (C3_reconnect_fencing.2.2.1 Ctx.init "sess_1"
      (by simp [Ctx.init])).trans rfl
  · exact (C3_reconnect_fencing.2.2.2.1 cPendingReconnect).1
  · exact (C3_reconnect_fencing.2.2.2.1 cPendingReconnect).2
  · exact C3_reconnect_fencing.2.2.2.2
      [Action.ensure payloadA (Except.ok sActive),
       Action.socketClosed "sess_1"] reconnectDelayMs "sess_1" rfl

/-! Claim C4. -/

/-- C4: along any interleaved execution the event feed never exceeds 100
entries; each valid inbound event is prepended at position 0 and the feed
is truncated with slice(0, 100), silently dropping the oldest entries. -/
theorem C4_feed_bounded :
    (∀ acts, ((run Ctx.init acts).events).length ≤ 100) ∧
    (∀ feed v, isSessionEvent v = true →
      handleStreamMessage feed (some v) = ((v :: feed).take 100, false)) ∧
    (∀ feed v, isSessionEvent v = true →
      ((handleStreamMessage feed (some v)).1).head? = some v) ∧
    (∀ feed msg, feed.length ≤ 100 →
      ((handleStreamMessage feed msg).1).length ≤ 100) := by
  refine ⟨?_, ?_, ?_, ?_⟩
  · intro acts
    exact run_events_le acts Ctx.init (by simp [Ctx.init])
  · intro feed v hv
    simp [handleStreamMessage, hv]
  · intro feed v hv
    simp only [handleStreamMessage, hv, if_pos]
    rw [show (100 : Nat) = 99 + 1 from rfl, List.take_succ_cons]
    rfl
  · intro feed msg h
    exact handleStreamMessage_length feed msg h

/-- C4 witness at concrete inputs. -/
theorem C4_feed_bounded_witness :
    handleStreamMessage [] (some evGood) = ([evGood], false) ∧
    ((handleStreamMessage [evGood] (some evGood)).1).head? = some evGood ∧
    ((run Ctx.init (List.replicate 150
      (Action.streamMessage (some evGood)))).events).length ≤ 100 := by
  refine ⟨?_, ?_, ?_⟩
  · exact C4_feed_bounded.2.1 [] evGood (by decide)
  · exact C4_feed_bounded.2.2.1 [evGood] evGood (by decide)
  · exact C4_feed_bounded.1 _

/-! Claim C5. -/

/-- C5: an inbound stream message that fails JSON parsing or the
isSessionEvent shape validation is discarded with a decode-failure log and
the feed is left unchanged; the handler is a total function of the message
and feed, so one bad message cannot crash it; the concrete malformed
message missing session_id is rejected; and a subsequent well-formed
message still lands at feed position 0. -/
theorem C5_malformed_dropped :
    (∀ feed, handleStreamMessage feed none = (feed, true)) ∧
    (∀ feed v, isSessionEvent v = false →
      handleStreamMessage feed (some v) = (feed, true)) ∧
    isSessionEvent evBad = false ∧
    (∀ feed v, isSessionEvent v = true →
      ((handleStreamMessage feed (some v)).1).head? = some v) := by
  refine ⟨?_, ?_, by decide, ?_⟩
  · intro feed
    rfl
  · intro feed v hv
    simp [handleStreamMessage, hv]
  · intro feed v hv
    simp only [handleStreamMessage, hv, if_pos]
    rw [show (100 : Nat) = 99 + 1 from rfl, List.take_succ_cons]
    rfl

/-- C5 witness at concrete inputs. -/
theorem C5_malformed_dropped_witness :
    handleStreamMessage [evGood] (some evBad) = ([evGood], true) ∧
    handleStreamMessage [evGood] none = ([evGood], true) ∧
    ((handleStreamMessage [] (some evGood)).1).head? = some evGood := by
  refine ⟨?_, ?_, ?_⟩
  · exact C5_malformed_dropped.2.1 [evGood] evBad (by decide)
  · exact C5_malformed_dropped.1 [evGood]
  · exact C5_malformed_dropped.2.2.2 [] evGood (by decide)

/-! Claim C6. -/

theorem socketIsOpen_def (c : Ctx) :
    socketIsOpen c = (match c.socket with
      | some sk => sk.readyState == ReadyState.opened
      | none => false) := rfl

/-- C6: with a session already stored, ensureSession returns exactly that
stored session without issuing a remote create-session call, re-opens the
stream only when no currently open socket exists, and leaves the stored
session in place; consequently two consecutive ensureSession calls without
an intervening close return the same session (hence the same session_id),
also when the first call created the session. -/
theorem C6_ensure_idempotent :
    (∀ c p r s, c.session = some s →
      (ensureSession c p r).2.1 = Except.ok s ∧
      (ensureSession c p r).2.2 = false ∧
      (socketIsOpen c = true → ((ensureSession c p r).1).socket = c.socket) ∧
      (socketIsOpen c = false →
        ((ensureSession c p r).1).socket =
          some ⟨s.metadata.session_id, ReadyState.connecting⟩) ∧
      ((ensureSession c p r).1).session = some s) ∧
    (∀ c p₁ p₂ r₂ st, c.session = none →
      (ensureSession c p₁ (Except.ok st)).2.1 = Except.ok st ∧
      (ensureSession ((ensureSession c p₁ (Except.ok st)).1) p₂ r₂).2.1 =
        Except.ok st ∧
      (ensureSession ((ensureSession c p₁ (Except.ok st)).1) p₂ r₂).2.2 =
        false) := by
  constructor
  · intro c p r s hs
    refine ⟨?_, ?_, ?_, ?_, ?_⟩
    · simp only [ensureSession, hs]
    · simp only [ensureSession, hs]
    · intro hop
      rw [socketIsOpen_def] at hop
      simp [ensureSession, hs, socketIsOpen_def, hop]
    · intro hop
      rw [socketIsOpen_def] at hop
      simp [ensureSession, hs, socketIsOpen_def, hop, connectStream]
    · simp only [ensureSession, hs]
      split <;> simp [connectStream, hs]
  · intro c p₁ p₂ r₂ st hs
    refine ⟨?_, ?_, ?_⟩
    · simp only [ensureSession, hs]
    · simp [ensureSession, hs, connectStream]
    · simp [ensureSession, hs, connectStream]

/-- C6 witness at concrete inputs: with a stored session, the result is the
stored session even when the remote oracle would have failed, and no create
call is made; from the empty state, create-then-ensure returns the same
session twice. -/
theorem C6_ensure_idempotent_witness :
    (ensureSession cActive payloadA (Except.error "down")).2.1 =
      Except.ok sActive ∧
    (ensureSession cActive payloadA (Except.error "down")).2.2 = false ∧
    ((ensureSession cActive payloadA (Except.error "down")).1).socket =
      cActive.socket ∧
    (ensureSession Ctx.init payloadA (Except.ok sActive)).2.1 =
      Except.ok sActive ∧
    (ensureSession ((ensureSession Ctx.init payloadA
        (Except.ok sActive)).1) payloadA (Except.error "down")).2.1 =
      Except.ok sActive := by
  refine ⟨?_, ?_, ?_, ?_, ?_⟩
  · exact (C6_ensure_idempotent.1 cActive payloadA (Except.error "down")
      sActive rfl).1
  · exact (C6_ensure_idempotent.1 cActive payloadA (Except.error "down")
      sActive rfl).2.1
  · exact (C6_ensure_idempotent.1 cActive payloadA (Except.error "down")
      sActive rfl).2.2.1 rfl
  · exact (C6_ensure_idempotent.2 Ctx.init payloadA payloadA
      (Except.error "down") sActive rfl).1
  · exact (C6_ensure_idempotent.2 Ctx.init payloadA payloadA
      (Except.error "down") sActive rfl).2.1

/-! Claim C7. -/

/-- C7 counterexample: after a successful closeSession the closed session
state remains stored, so a subsequent ensureSession takes the
existing-session branch: it issues no remote create-session call and
returns the old closed session with its old id sess_1, even though the
remote oracle had a fresh session sess_2 available. This refutes the claim
that ensureSession after closeSession results in a brand-new session. -/
theorem C7_counterexample :
    (closeSession cActive (Except.ok sClosed)).2 = Except.ok () ∧
    (ensureSession (closeSession cActive (Except.ok sClosed)).1 payloadA
      (Except.ok sFresh)).2.2 = false ∧
    (ensureSession (closeSession cActive (Except.ok sClosed)).1 payloadA
      (Except.ok sFresh)).2.1 = Except.ok sClosed ∧
    sClosed.metadata.session_id = "sess_1" ∧
    sFresh.metadata.session_id = "sess_2" ∧
    sClosed.active = false := by
  exact ⟨rfl, rfl, rfl, rfl, rfl, rfl⟩

/-- C7 amended: the lifecycle never transitions Closed back to Active —
ensureSession never reactivates the stored session — but after a successful
closeSession the closed state remains stored, so a subsequent ensureSession
returns that same closed session (same session id) without a fresh remote
create-session call; a brand-new session is created only when no session is
stored at all. -/
theorem C7_closed_session_reused (c : Ctx) (s closed : SessionState)
    (p : EnsurePayload) (r : Except String SessionState)
    (h : c.session = some s) :
    ((closeSession c (Except.ok closed)).1).session = some closed ∧
    (ensureSession (closeSession c (Except.ok closed)).1 p r).2.1 =
      Except.ok closed ∧
    (ensureSession (closeSession c (Except.ok closed)).1 p r).2.2 = false ∧
    ((ensureSession (closeSession c (Except.ok closed)).1 p r).1).session =
      some closed ∧
    (∀ c' st p', c'.session = none →
      (ensureSession c' p' (Except.ok st)).2.1 = Except.ok st ∧
      (ensureSession c' p' (Except.ok st)).2.2 = true) := by
  have h1 : ((closeSession c (Except.ok closed)).1).session = some closed := by
    simp [closeSession, h, disconnectStream]
  refine ⟨h1, ?_, ?_, ?_, ?_⟩
  · simp only [ensureSession, h1]
  · simp only [ensureSession, h1]
  · simp only [ensureSession, h1]
    split <;> simp [connectStream, h1]
  · intro c' st p' h'
    exact ⟨by simp only [ensureSession, h'], by simp only [ensureSession, h']⟩

/-- C7 witness at concrete inputs. -/
theorem C7_closed_session_reused_witness :
    ((closeSession cActive (Except.ok sClosed)).1).session = some sClosed ∧
    (ensureSession (closeSession cActive (Except.ok sClosed)).1 payloadA
      (Except.ok sFresh)).2.1 = Except.ok sClosed ∧
    (ensureSession (closeSession cActive (Except.ok sClosed)).1 payloadA
      (Except.ok sFresh)).2.2 = false ∧
    ((ensureSession (closeSession cActive (Except.ok sClosed)).1 payloadA
      (Except.ok sFresh)).1).session = some sClosed ∧
    (∀ c' st p', c'.session = none →
      (ensureSession c' p' (Except.ok st)).2.1 = Except.ok st ∧
      (ensureSession c' p' (Except.ok st)).2.2 = true) :=
  C7_closed_session_reused cActive sActive sClosed payloadA
    (Except.ok sFresh) rfl

/-! Claim C8. -/

/-- C8 counterexample: a timed run in which the session event stream is
open from t = 5 ms and stays open past t = 40000 ms, during which the
stream client transmits nothing at all — in particular no application-level
ping in any 30 s window. The session stream client of SessionContext.tsx
installs no heartbeat; this refutes the claim that the event stream client
sends a ping every 30 s while the connection is open. -/
theorem C8_counterexample :
    (runTimed Ctx.init [(0, Action.ensure payloadA (Except.ok sActive)),
        (5, Action.socketOpened)]).socket =
      some ⟨"sess_1", ReadyState.opened⟩ ∧
    (runTimed Ctx.init [(0, Action.ensure payloadA (Except.ok sActive)),
        (5, Action.socketOpened),
        (40000, Action.streamMessage (some evGood))]).socket =
      some ⟨"sess_1", ReadyState.opened⟩ ∧
    sendsTimed Ctx.init [(0, Action.ensure payloadA (Except.ok sActive)),
        (5, Action.socketOpened),
        (40000, Action.streamMessage (some evGood))] = [] := by
  exact ⟨rfl, rfl, rfl⟩

/-- C8 amended: the session event stream client sends no application-level
heartbeat at all — along any run its set of transmissions is empty; the
fixed 30 s ping exists only in the consciousness visualizer component,
whose keep-alive tick sends the literal ping message exactly when its own
consciousness-stream socket is open (ping responses are not interpreted
anywhere). -/
theorem C8_ping_only_in_visualizer :
    (∀ c a, streamClientSends c a = []) ∧
    (∀ c tacts, sendsTimed c tacts = []) ∧
    visualizerPingIntervalMs = 30000 ∧
    visualizerPingTick ReadyState.opened = ["ping"] ∧
    (∀ rs, rs ≠ ReadyState.opened → visualizerPingTick rs = []) := by
  refine ⟨fun c a => rfl, fun c tacts => sendsTimed_eq_nil c tacts, rfl, rfl, ?_⟩
  intro rs h
  cases rs
  · rfl
  · exact absurd rfl h
  · rfl
  · rfl

/-- C8 witness at concrete inputs. -/
theorem C8_ping_only_in_visualizer_witness :
    streamClientSends cActive Action.socketOpened = [] ∧
    sendsTimed Ctx.init [(0, Action.socketOpened)] = [] ∧
    visualizerPingTick ReadyState.connecting = [] ∧
    visualizerPingTick ReadyState.opened = ["ping"] :=
  ⟨C8_ping_only_in_visualizer.1 cActive Action.socketOpened,
   C8_ping_only_in_visualizer.2.1 Ctx.init [(0, Action.socketOpened)],
   C8_ping_only_in_visualizer.2.2.2.2 ReadyState.connecting (by decide),
   C8_ping_only_in_visualizer.2.2.2.1⟩

/-! Claim C9. -/

/-- C9: stopCapture releases, in the fixed program order — processing
stage, source node, audio context, media tracks — exactly the resources
currently held, and clears every ref and the capturing flag; the auto-stop
effect invokes this same stopCapture whenever the bound session is no
longer stored-and-active while capture runs, and performs no release
otherwise. -/
theorem C9_stopCapture_order :
    (∀ cs, (stopCapture cs).2 = teardownOrder.filter (teardownPerformed cs)) ∧
    (∀ cs, (stopCapture cs).1 =
      ⟨false, false, false, false, false⟩) ∧
    (∀ s cs, s.active = false → cs.isCapturing = true →
      captureAutoStop (some s) cs = stopCapture cs) ∧
    (∀ cs, cs.isCapturing = true → captureAutoStop none cs = stopCapture cs) ∧
    (∀ sess cs, (sessionInactive sess && cs.isCapturing) = false →
      captureAutoStop sess cs = (cs, [])) := by
  refine ⟨?_, ?_, ?_, ?_, ?_⟩
  · intro cs
    obtain ⟨a, b, c, d, e⟩ := cs
    cases a <;> cases b <;> cases c <;> cases d <;> rfl
  · intro cs
    rfl
  · intro s cs h1 h2
    simp [captureAutoStop, sessionInactive, h1, h2]
  · intro cs h
    simp [captureAutoStop, sessionInactive, h]
  · intro sess cs h
    simp [captureAutoStop, h]

/-- C9 witness at concrete inputs. -/
theorem C9_stopCapture_order_witness :
    (stopCapture csFull).2 = teardownOrder ∧
    captureAutoStop (some sClosed) csFull = stopCapture csFull ∧
    captureAutoStop none csFull = stopCapture csFull ∧
    captureAutoStop (some sActive) csFull = (csFull, []) := by
  refine ⟨?_, ?_, ?_, ?_⟩
  · exact (C9_stopCapture_order.1 csFull).trans rfl
  · exact C9_stopCapture_order.2.2.1 sClosed csFull rfl rfl
  · exact C9_stopCapture_order.2.2.2.1 csFull rfl
  · exact C9_stopCapture_order.2.2.2.2 (some sActive) csFull rfl

/-! Claim C10. -/

/-- C10: every frame built by pushAudioFrame carries duration_ms equal to
the sample count divided by the sample rate times 1000 (with the byte
payload holding four bytes per sample); in particular a 4096-sample block
at 22050 Hz yields duration_ms = 4096/22050*1000, which lies strictly
between 185.7 and 185.8 ms. -/
theorem C10_duration_ms_formula :
    (∀ c s buffer rate fresh now, c.session = some s →
      pushAudioFrame c buffer rate fresh now =
        Except.ok (s.metadata.session_id,
          { session_id := s.metadata.session_id,
            frame_id := "frame_" ++ fresh,
            sample_rate := rate,
            channels := 1,
            duration_ms := ((buffer.length : ℚ) / rate) * 1000,
            waveform_base64 := btoa buffer.bytes,
            timestamp_ms := now })) ∧
    (∀ b : Float32Array, (b.bytes).length = 4 * b.length) ∧
    (pushAudioFrame cActive buf4096 22050 "id0" 0).toOption.map
        (fun pr => pr.2.duration_ms) = some (((4096 : ℚ) / 22050) * 1000) ∧
    1857 / 10 < ((4096 : ℚ) / 22050) * 1000 ∧
    ((4096 : ℚ) / 22050) * 1000 < 1858 / 10 := by
  refine ⟨?_, ?_, ?_, by norm_num, by norm_num⟩
  · intro c s buffer rate fresh now h
    simp [pushAudioFrame, h]
  · intro b
    exact sampleBytes_length b.samples
  · have hses : cActive.session = some sActive := rfl
    have hlen : buf4096.length = 4096 :=
      List.length_replicate 4096 ((0, 0, 0, 0) : Nat × Nat × Nat × Nat)
    simp only [pushAudioFrame, hses]
    simp [Except.toOption, hlen]

/-- C10 witness at concrete inputs. -/
theorem C10_duration_ms_formula_witness :
    pushAudioFrame cActive buf4096 22050 "id0" 0 =
      Except.ok ("sess_1",
        { session_id := "sess_1",
          frame_id := "frame_id0",
          sample_rate := 22050,
          channels := 1,
          duration_ms := ((buf4096.length : ℚ) / 22050) * 1000,
          waveform_base64 := btoa buf4096.bytes,
          timestamp_ms := 0 }) :=
  C10_duration_ms_formula.1 cActive sActive buf4096 22050 "id0" 0 rfl

end TheNote
